import Mathlib

/-!
Shallow embedding of the `autograde` grading pipeline
(`src/autograde/common.py` and `src/autograde/grade.py`).

Python values recovered from student notebooks are modelled by the
inductive type `PyVal`; Python `float` arithmetic is modelled by exact
rationals.  Dictionaries are modelled as association lists with
string keys (the literal grammar accepted by the embedded evaluator is
restricted to string-keyed mappings, which covers every summary shape
the validator inspects).  Fallible Python operations are modelled with
`Option`.
-/

/-- Model of the Python values the pipeline manipulates: ints, floats
(exact rationals), booleans, strings, lists, tuples, string-keyed
dicts and `None`. -/
inductive PyVal where
  | int : Int → PyVal
  | float : ℚ → PyVal
  | bool : Bool → PyVal
  | str : String → PyVal
  | list : List PyVal → PyVal
  | tuple : List PyVal → PyVal
  | dict : List (String × PyVal) → PyVal
  | none : PyVal

/-- Python whitespace (`\s` of the `re` module, ASCII): space, tab,
newline, carriage return, form feed, vertical tab. -/
def isPySpace (c : Char) : Bool :=
  c = ' ' || c = '\t' || c = '\n' || c = '\x0d' || c = '\x0c' || c = '\x0b'

/-- Drop leading Python whitespace. -/
def skipWs (cs : List Char) : List Char := cs.dropWhile isPySpace

/-- Dictionary lookup, last binding wins (a Python dict literal with a
repeated key keeps the last value). -/
def pyGet : List (String × PyVal) → String → Option PyVal
  | [], _ => Option.none
  | (k', v) :: rest, k =>
    match pyGet rest k with
    | some w => some w
    | Option.none => if k' = k then some v else Option.none

/-- `summary.get(k)` on a summary value; only dict summaries have keys
(the pipeline only ever calls `.get` on dict values). -/
def pyGetV (s : PyVal) (k : String) : Option PyVal :=
  match s with
  | PyVal.dict d => pyGet d k
  | _ => Option.none

/-- Python truthiness of a value. -/
def pyTruthy : PyVal → Bool
  | PyVal.bool b => b
  | PyVal.int n => decide (n ≠ 0)
  | PyVal.float q => decide (q ≠ 0)
  | PyVal.str s => decide (s ≠ "")
  | PyVal.list l => !l.isEmpty
  | PyVal.tuple l => !l.isEmpty
  | PyVal.dict d => !d.isEmpty
  | PyVal.none => false

/-- Python `str.strip()` restricted to the ASCII whitespace set. -/
def pyStrip (s : String) : String :=
  String.mk (((s.toList.dropWhile isPySpace).reverse.dropWhile isPySpace).reverse)

/-! ## The safe literal evaluator (model of `ast.literal_eval`)

`ast.literal_eval` is a Python standard-library collaborator; it is
modelled here by a recursive-descent parser over the literal grammar
the validator relies on: numbers (with optional sign and exponent),
single- and double-quoted strings with the common escapes, `True`,
`False`, `None`, lists, tuples and string-keyed dicts, with trailing
commas.  Anything outside this grammar (in particular unbalanced
spans and trailing garbage) evaluates to `Option.none`, modelling the
exception `literal_eval` raises. -/

/-- Decimal digits to a natural number. -/
def digitsToNat (ds : List Char) : Nat := ds.foldl (fun a c => a * 10 + (c.toNat - 48)) 0

/-- Parse the body of a quoted string after the opening quote `q`,
returning the contents and the remainder after the closing quote. -/
def parseStrAux (q : Char) : List Char → Option (List Char × List Char)
  | [] => Option.none
  | c :: rest =>
    if c = q then some ([], rest)
    else if c = '\\' then
      match rest with
      | [] => Option.none
      | e :: rest2 =>
        let esc : Option Char :=
          if e = 'n' then some '\n'
          else if e = 't' then some '\t'
          else if e = 'r' then some '\x0d'
          else if e = '\\' then some '\\'
          else if e = '\x27' then some '\x27'
          else if e = '"' then some '"'
          else Option.none
        match esc with
        | some ec => (parseStrAux q rest2).map (fun p => (ec :: p.1, p.2))
        | Option.none => Option.none
    else if c = '\n' then Option.none
    else (parseStrAux q rest).map (fun p => (c :: p.1, p.2))

/-- Attach an optional `e`/`E` exponent to a parsed mantissa.  `isFloat`
records whether a decimal point was seen (without a point and without
an exponent the result is an int). -/
def applyExp (mant : ℚ) (intVal : Int) (isFloat : Bool) (cs : List Char) : Option (PyVal × List Char) :=
  match cs with
  | c :: rest =>
    if c = 'e' || c = 'E' then
      let sr : Int × List Char :=
        match rest with
        | s :: r2 => if s = '+' then (1, r2) else if s = '-' then (-1, r2) else (1, rest)
        | [] => (1, [])
      let ds := sr.2.takeWhile Char.isDigit
      match ds with
      | [] => Option.none
      | _ =>
        let e : Int := sr.1 * (digitsToNat ds : Int)
        let base : ℚ := if isFloat then mant else (intVal : ℚ)
        some (PyVal.float (base * (10 : ℚ) ^ e), sr.2.dropWhile Char.isDigit)
    else if isFloat then some (PyVal.float mant, cs) else some (PyVal.int intVal, cs)
  | [] => if isFloat then some (PyVal.float mant, []) else some (PyVal.int intVal, [])

/-- Parse an unsigned numeric literal (int or float). -/
def parseNum (cs : List Char) : Option (PyVal × List Char) :=
  let intPart := cs.takeWhile Char.isDigit
  let r1 := cs.dropWhile Char.isDigit
  match r1 with
  | '.' :: r2 =>
    let frac := r2.takeWhile Char.isDigit
    let r3 := r2.dropWhile Char.isDigit
    match intPart, frac with
    | [], [] => Option.none
    | _, _ =>
      let mant : ℚ := (digitsToNat intPart : ℚ) + (digitsToNat frac : ℚ) / ((10 : ℚ) ^ frac.length)
      applyExp mant 0 true r3
  | _ =>
    match intPart with
    | [] => Option.none
    | _ => applyExp 0 (digitsToNat intPart : Int) false r1

mutual

/-- Parse one literal value (fuel-bounded recursive descent). -/
def parseVal : Nat → List Char → Option (PyVal × List Char)
  | 0, _ => Option.none
  | Nat.succ f, cs0 =>
    let cs := skipWs cs0
    match cs with
    | [] => Option.none
    | c :: rest =>
      if c = '\x7b' then
        (parseDictItems f rest).map (fun p => (PyVal.dict p.1, p.2))
      else if c = '[' then
        (parseSeqItems f ']' rest).map (fun p => (PyVal.list p.1, p.2))
      else if c = '(' then parseParen f rest
      else if c = '\x27' || c = '"' then
        (parseStrAux c rest).map (fun p => (PyVal.str (String.mk p.1), p.2))
      else if c = '-' then
        match parseNum (skipWs rest) with
        | some (PyVal.int n, r) => some (PyVal.int (-n), r)
        | some (PyVal.float q, r) => some (PyVal.float (-q), r)
        | _ => Option.none
      else if c = '+' then parseNum (skipWs rest)
      else if ("True".toList).isPrefixOf cs then some (PyVal.bool true, cs.drop 4)
      else if ("False".toList).isPrefixOf cs then some (PyVal.bool false, cs.drop 5)
      else if ("None".toList).isPrefixOf cs then some (PyVal.none, cs.drop 4)
      else parseNum cs

/-- Parse dict entries after the opening brace, including the empty
dict and trailing commas; keys must be string literals. -/
def parseDictItems : Nat → List Char → Option (List (String × PyVal) × List Char)
  | 0, _ => Option.none
  | Nat.succ f, cs0 =>
    let cs := skipWs cs0
    match cs with
    | [] => Option.none
    | c :: r =>
      if c = '\x7d' then some ([], r)
      else if c = '\x27' || c = '"' then
        match parseStrAux c r with
        | Option.none => Option.none
        | some (kcs, r2) =>
          match skipWs r2 with
          | ':' :: r4 =>
            match parseVal f r4 with
            | Option.none => Option.none
            | some (v, r5) =>
              match skipWs r5 with
              | ',' :: r7 =>
                (parseDictItems f r7).map (fun p => ((String.mk kcs, v) :: p.1, p.2))
              | d :: r7 =>
                if d = '\x7d' then some ([(String.mk kcs, v)], r7) else Option.none
              | [] => Option.none
          | _ => Option.none
      else Option.none

/-- Parse sequence elements up to the closing delimiter `closer`,
with trailing commas. -/
def parseSeqItems : Nat → Char → List Char → Option (List PyVal × List Char)
  | 0, _, _ => Option.none
  | Nat.succ f, closer, cs0 =>
    let cs := skipWs cs0
    match cs with
    | [] => Option.none
    | c :: r =>
      if c = closer then some ([], r)
      else
        match parseVal f cs with
        | Option.none => Option.none
        | some (v, r2) =>
          match skipWs r2 with
          | ',' :: r4 => (parseSeqItems f closer r4).map (fun p => (v :: p.1, p.2))
          | d :: r4 => if d = closer then some ([v], r4) else Option.none
          | [] => Option.none

/-- Parse the contents of parentheses: the empty tuple, a parenthesised
value, or a tuple of two or more elements / one element with a
trailing comma. -/
def parseParen : Nat → List Char → Option (PyVal × List Char)
  | 0, _ => Option.none
  | Nat.succ f, cs0 =>
    let cs := skipWs cs0
    match cs with
    | [] => Option.none
    | c :: _ =>
      if c = ')' then some (PyVal.tuple [], cs.drop 1)
      else
        match parseVal f cs with
        | Option.none => Option.none
        | some (v, r2) =>
          match skipWs r2 with
          | ',' :: r4 =>
            (parseSeqItems f ')' r4).map (fun p => (PyVal.tuple (v :: p.1), p.2))
          | ')' :: r4 => some (v, r4)
          | _ => Option.none

end

/-- Model of `ast.literal_eval` on a text span: parse one literal and
require that only whitespace remains; `Option.none` models the raised
exception. -/
def literal_eval (s : String) : Option PyVal :=
  match parseVal (s.length + 8) s.toList with
  | some (v, rest) => match skipWs rest with | [] => some v | _ => Option.none
  | Option.none => Option.none

/-! ## The structural regex match (model of
`re.search(rf"{re.escape(varname)}\s*=\s*({{.*}})\s*$", code, re.DOTALL | re.MULTILINE)`)

With `DOTALL` the greedy `.*` may cross lines, and with `MULTILINE`
the `$` matches at a line end or at the end of the string; so a match
starting at an occurrence of `varname` captures, as group 1, the span
from the first `{` after the `=` to the *last* `}` that is followed
only by whitespace up to a newline or the end of the input. -/

/-- Does `\s*$` (MULTILINE) match here: only whitespace up to a newline
or the end of the input? -/
def tailOk : List Char → Bool
  | [] => true
  | c :: rest => if c = '\n' then true else if isPySpace c then tailOk rest else false

/-- The greedy group `({.*})\s*$` taken from a suffix `r3` that starts
at the opening brace: the span up to the last admissible `}`. -/
def greedyGroup (r3 : List Char) : Option (List Char) :=
  match ((List.range r3.length).filter
      (fun j => decide (0 < j) && decide (r3.getD j ' ' = '\x7d') && tailOk (r3.drop (j + 1)))).getLast? with
  | some j => some (r3.take (j + 1))
  | Option.none => Option.none

/-- Does `varname\s*=\s*` followed by an opening brace match at the head
of `cs`?  If so, return the suffix starting at the brace. -/
def matchHead (var : List Char) (cs : List Char) : Option (List Char) :=
  if var.isPrefixOf cs then
    match (cs.drop var.length).dropWhile isPySpace with
    | '=' :: r2 =>
      match r2.dropWhile isPySpace with
      | '\x7b' :: r3 => some ('\x7b' :: r3)
      | _ => Option.none
    | _ => Option.none
  else Option.none

/-- Leftmost match of the assignment pattern: try every start position
in order and return the captured group of the first position at which
the whole pattern (including a closing brace admissible for `\s*$`)
succeeds. -/
def searchAssign (var : List Char) : List Char → Option (List Char)
  | [] => (matchHead var []).bind greedyGroup
  | c :: rest =>
    match (matchHead var (c :: rest)).bind greedyGroup with
    | some g => some g
    | Option.none => searchAssign var rest

/-- Is there a structural match of `varname = { ... }` in `code` (the
regex of `_extract_dict_literal_from_code` succeeds)? -/
def has_structural_match (code varname : String) : Bool :=
  (searchAssign varname.toList code.toList).isSome

/-! ## The balanced-span fallback and the per-block extractor -/

/-- The scanning loop of the fallback in
`_extract_dict_literal_from_code`: depth goes up at `{`, down at `}`,
and the loop stops with `i + 1` when the depth reaches zero at a `}`. -/
def balancedScan : List Char → Int → Nat → Option Nat
  | [], _, _ => Option.none
  | c :: rest, depth, i =>
    if c = '\x7b' then balancedScan rest (depth + 1) (i + 1)
    else if c = '\x7d' then
      if depth - 1 = 0 then some (i + 1) else balancedScan rest (depth - 1) (i + 1)
    else balancedScan rest depth (i + 1)

/-- Model of the balanced-brace search of
`_extract_dict_literal_from_code` starting at index `start`. -/
def balancedEnd (cs : List Char) (start : Nat) : Option Nat :=
  balancedScan (cs.drop start) 0 start

/-- The `{"__parse_error__": True}` sentinel returned for a recognised
but unparseable assignment. -/
def parseErrorSentinel : PyVal := PyVal.dict [("__parse_error__", PyVal.bool true)]

/-- Model of `_extract_dict_literal_from_code`: regex search, greedy
parse, balanced-brace fallback, and the unparseable sentinel when the
narrowed span still fails to evaluate.  `Option.none` models Python
`None`. -/
def extractDictLiteralFromCode (code varname : String) : Option PyVal :=
  match searchAssign varname.toList code.toList with
  | Option.none => Option.none
  | some rawL =>
    match literal_eval (String.mk rawL) with
    | some v => some v
    | Option.none =>
      match rawL.findIdx? (fun c => c = '\x7b') with
      | Option.none => Option.none
      | some s =>
        match balancedEnd rawL s with
        | Option.none => Option.none
        | some e =>
          match literal_eval (String.mk ((rawL.drop s).take (e - s))) with
          | some v => some v
          | Option.none => some parseErrorSentinel

/-- A notebook cell: its kind (`"code"` or `"markdown"`) and its raw
source text. -/
structure Cell where
  cell_type : String
  source : String

/-- Model of `extract_lab_summary`: scan cells in order, skip non-code
cells, and return the first per-cell extraction that is not `None`. -/
def extract_lab_summary (varname : String) : List Cell → Option PyVal
  | [] => Option.none
  | c :: rest =>
    if c.cell_type ≠ "code" then extract_lab_summary varname rest
    else
      match extractDictLiteralFromCode c.source varname with
      | some d => some d
      | Option.none => extract_lab_summary varname rest

/-! ## Data model of the grading run -/

/-- Messages appended to a `GradeResult`; each constructor models one
formatted Python message string, carrying the values interpolated into
it. -/
inductive Msg where
  | summaryNotFound : Msg
  | parseError : Msg
  | missingKey : String → Msg
  | mustBeNumeric : String → Msg
  | outOfRange : String → ℚ → ℚ → PyVal → Msg
  | cleanShapeBad : Msg
  | cleanShape0NotNumeric : Msg
  | effectBad : Msg
  | effectValueNotNumeric : Msg
  | ciBad : Msg
  | ciNotNumbers : Msg
  | ciOrder : Msg
  | dashboardNotDict : Msg
  | filtersNotList : Msg
  | chartsNotList : Msg
  | noValidator : String → Msg
  | readError : String → Msg
  | fewRows : PyVal → Msg
  | missingFilters : List String → Msg
  | fewCharts : Int → Msg
  | studentMismatch : String → String → Msg
  | shortReport : Nat → Int → Msg

/-- Model of the `GradeResult` dataclass. -/
structure GradeResult where
  student : String
  path : String
  lab : String
  status : String
  score : ℚ
  errors : List Msg
  warnings : List Msg

/-- A fresh `GradeResult` as constructed in `main` (dataclass defaults:
status PASS, score 1, empty error and warning lists). -/
def initResult (student path lab : String) : GradeResult :=
  ⟨student, path, lab, "PASS", 1, [], []⟩

/-- The `rules` mapping of a validation spec; `Option.none` models an
absent key, with the source's `.get` defaults applied at each use
site. -/
structure Rules where
  pvalue_range : Option (ℚ × ℚ)
  alpha_range : Option (ℚ × ℚ)
  min_rows_clean : Option Int
  ci_requires_order : Option Bool
  dashboard_filters_required : Option (List String)
  dashboard_charts_min : Option Int

/-- A `rules` mapping with every key absent (`spec.get("rules", {})`
when the spec has no rules). -/
def emptyRules : Rules :=
  ⟨Option.none, Option.none, Option.none, Option.none, Option.none, Option.none⟩

/-- The `report` sub-spec. -/
structure ReportSpec where
  require_markdown_title_regex : Option String
  min_words_in_report_cell : Option Int

/-- A validation spec as loaded from the per-lab JSON file. -/
structure Spec where
  summary_var : Option String
  required_keys : Option (List String)
  rules : Option Rules
  report : Option ReportSpec

/-! ## Generic validators (`common.py`) -/

/-- Model of `is_number`: int or float, and booleans are explicitly
not numbers (the source excludes `bool` although Python booleans are
ints). -/
def is_number : PyVal → Bool
  | PyVal.int _ => true
  | PyVal.float _ => true
  | _ => false

/-- The rational denoted by a numeric value (`float(v)` in the
source; booleans coerce to 1 and 0 there, other cases are only
reached under an `is_number` guard). -/
def toRat : PyVal → ℚ
  | PyVal.int n => (n : ℚ)
  | PyVal.float q => q
  | PyVal.bool b => if b then 1 else 0
  | _ => 0

/-- Python `int()` truncation toward zero, for `int(nrows)`. -/
def pyIntTrunc (q : ℚ) : Int := if 0 ≤ q then q.floor else q.ceil

/-- Model of `require_keys`: one missing-key error per required key
not present in the summary, in order. -/
def require_keys (d : PyVal) (keys : List String) : List Msg :=
  match keys with
  | [] => []
  | k :: rest =>
    if (pyGetV d k).isSome then require_keys d rest
    else Msg.missingKey k :: require_keys d rest

/-- Model of `require_number_range`: absent key is fine; a non-number
(including booleans) is an error; a number outside the inclusive
`[lo, hi]` range is an error naming the value. -/
def require_number_range (d : PyVal) (key : String) (lo hi : ℚ) : Option Msg :=
  match pyGetV d key with
  | Option.none => Option.none
  | some v =>
    if is_number v then
      if lo ≤ toRat v ∧ toRat v ≤ hi then Option.none
      else some (Msg.outOfRange key lo hi v)
    else some (Msg.mustBeNumeric key)

/-- `isinstance(v, (list, tuple)) and len(v) == 2`, with the two
elements. -/
def seqOfLen2 : PyVal → Option (PyVal × PyVal)
  | PyVal.list [a, b] => some (a, b)
  | PyVal.tuple [a, b] => some (a, b)
  | _ => Option.none

/-! ## Section finder and word count -/

/-- Texts of the markdown cells whose source matches the title
pattern, in document order.  `m pat src` models
`re.compile(pat, re.IGNORECASE).search(src) is not None`; the regex
engine itself is an external collaborator. -/
def collectMarkdown (m : String → String → Bool) (rx : String) : List Cell → List String
  | [] => []
  | c :: rest =>
    if c.cell_type ≠ "markdown" then collectMarkdown m rx rest
    else if m rx c.source then c.source :: collectMarkdown m rx rest
    else collectMarkdown m rx rest

/-- Model of `find_markdown_section_text`: join the matching markdown
cells with a blank line and strip the result. -/
def find_markdown_section_text (m : String → String → Bool) (cells : List Cell) (rx : String) : String :=
  pyStrip (String.intercalate "\n\n" (collectMarkdown m rx cells))

/-- Model of `count_words`: newlines become spaces, split on single
spaces, count the pieces that are nonempty after stripping. -/
def count_words (text : String) : Nat :=
  if text = "" then 0
  else (((text.replace "\n" " ").splitOn " ").filter (fun w => pyStrip w ≠ "")).length

/-! ## The lab01 validator (`grade.py`) -/

/-- `result.errors.append(e)`. -/
def appendErr (r : GradeResult) (e : Msg) : GradeResult :=
  { r with errors := r.errors ++ [e] }

/-- `result.warnings.append(w)`. -/
def appendWarn (r : GradeResult) (w : Msg) : GradeResult :=
  { r with warnings := r.warnings ++ [w] }

/-- Append the error of a range check when it produced one. -/
def appendErrOpt (r : GradeResult) (e : Option Msg) : GradeResult :=
  match e with
  | some msg => appendErr r msg
  | Option.none => r

/-- Required-keys check of `validate_lab01`. -/
def checkRequired (s : PyVal) (spec : Spec) (r : GradeResult) : GradeResult :=
  { r with errors := r.errors ++ require_keys s (spec.required_keys.getD []) }

/-- `pvalue` range check (`rules.get("pvalue_range", [0.0, 1.0])`). -/
def checkPvalue (s : PyVal) (rules : Rules) (r : GradeResult) : GradeResult :=
  appendErrOpt r (require_number_range s "pvalue"
    (rules.pvalue_range.getD (0, 1)).1 (rules.pvalue_range.getD (0, 1)).2)

/-- `alpha` range check (`rules.get("alpha_range", [0.0, 1.0])`). -/
def checkAlpha (s : PyVal) (rules : Rules) (r : GradeResult) : GradeResult :=
  appendErrOpt r (require_number_range s "alpha"
    (rules.alpha_range.getD (0, 1)).1 (rules.alpha_range.getD (0, 1)).2)

/-- `clean_shape` check: a two-element list/tuple whose first element
is numeric; fewer rows than `min_rows_clean` (default 1) is only a
warning. -/
def checkCleanShape (s : PyVal) (rules : Rules) (r : GradeResult) : GradeResult :=
  match pyGetV s "clean_shape" with
  | Option.none => r
  | some sh =>
    match seqOfLen2 sh with
    | Option.none => appendErr r Msg.cleanShapeBad
    | some (nrows, _) =>
      if is_number nrows then
        if pyIntTrunc (toRat nrows) < rules.min_rows_clean.getD 1 then
          appendWarn r (Msg.fewRows nrows)
        else r
      else appendErr r Msg.cleanShape0NotNumeric

/-- `effect` check: a dict with `name` and `value`, the latter
numeric. -/
def checkEffect (s : PyVal) (r : GradeResult) : GradeResult :=
  match pyGetV s "effect" with
  | Option.none => r
  | some eff =>
    match eff with
    | PyVal.dict ed =>
      match pyGet ed "name", pyGet ed "value" with
      | some _, some v =>
        if is_number v then r else appendErr r Msg.effectValueNotNumeric
      | _, _ => appendErr r Msg.effectBad
    | _ => appendErr r Msg.effectBad

/-- `bootstrap_ci_diff` check: a two-element numeric interval; if the
`ci_requires_order` rule (default `True`) holds and `lo >= hi`, an
ordering error. -/
def checkCI (s : PyVal) (rules : Rules) (r : GradeResult) : GradeResult :=
  match pyGetV s "bootstrap_ci_diff" with
  | Option.none => r
  | some ci =>
    match seqOfLen2 ci with
    | Option.none => appendErr r Msg.ciBad
    | some (lo, hi) =>
      if is_number lo && is_number hi then
        if (rules.ci_requires_order.getD true) && decide (toRat hi ≤ toRat lo) then
          appendErr r Msg.ciOrder
        else r
      else appendErr r Msg.ciNotNumbers

/-- Does the Python equality `x == k` hold between a summary element
and a required filter name (strings only compare equal to strings)? -/
def pyStrEq (x : PyVal) (k : String) : Bool :=
  match x with
  | PyVal.str s => s = k
  | _ => false

/-- Insertion of a string into an ascending list, for `sorted`. -/
def insertStr (x : String) : List String → List String
  | [] => [x]
  | y :: ys => if x < y then x :: y :: ys else y :: insertStr x ys

/-- Model of Python `sorted` on the (duplicate-free) missing-filter
set. -/
def sortStrings : List String → List String
  | [] => []
  | x :: xs => insertStr x (sortStrings xs)

/-- The `filters` sub-block of the dashboard check: `filters` must be
a list (error), and required filters not supplied produce one warning
listing them, sorted. -/
def checkFilters (dd : List (String × PyVal)) (rules : Rules) (r : GradeResult) : GradeResult :=
  match (pyGet dd "filters").getD (PyVal.list []) with
  | PyVal.list fl =>
    match sortStrings
        (((rules.dashboard_filters_required.getD []).dedup).filter
          (fun k => !(fl.any (fun x => pyStrEq x k)))) with
    | [] => r
    | missing => appendWarn r (Msg.missingFilters missing)
  | _ => appendErr r Msg.filtersNotList

/-- The `charts` sub-block of the dashboard check: `charts` must be a
list (error), and fewer than `dashboard_charts_min` charts is a
warning. -/
def checkCharts (dd : List (String × PyVal)) (rules : Rules) (r : GradeResult) : GradeResult :=
  match (pyGet dd "charts").getD (PyVal.list []) with
  | PyVal.list cl =>
    if (cl.length : Int) < rules.dashboard_charts_min.getD 0 then
      appendWarn r (Msg.fewCharts (rules.dashboard_charts_min.getD 0))
    else r
  | _ => appendErr r Msg.chartsNotList

/-- `dashboard` check: `dashboard` must be a dict (error otherwise),
then the filters and charts sub-blocks run in order. -/
def checkDashboard (s : PyVal) (rules : Rules) (r : GradeResult) : GradeResult :=
  match pyGetV s "dashboard" with
  | Option.none => r
  | some dash =>
    match dash with
    | PyVal.dict dd => checkCharts dd rules (checkFilters dd rules r)
    | _ => appendErr r Msg.dashboardNotDict

/-- Student-name consistency check: a case-insensitive,
whitespace-trimmed mismatch with the folder name is a warning. -/
def checkStudent (s : PyVal) (r : GradeResult) : GradeResult :=
  match pyGetV s "student" with
  | some (PyVal.str st) =>
    if (pyStrip st).toLower = (pyStrip r.student).toLower then r
    else appendWarn r (Msg.studentMismatch st r.student)
  | _ => r

/-- The final status/score step of `validate_lab01`: any error means
FAIL with score 0, otherwise PASS with
`max(0.7, 1.0 - 0.05 * len(result.warnings))`. -/
def finalize (r : GradeResult) : GradeResult :=
  match r.errors with
  | [] => { r with status := "PASS",
                   score := max 0.7 (1 - 0.05 * (r.warnings.length : ℚ)) }
  | _ => { r with status := "FAIL", score := 0 }

/-- Is the `__parse_error__` entry of the summary truthy
(`summary.get("__parse_error__")`)? -/
def parseFlagTruthy (s : PyVal) : Bool :=
  match pyGetV s "__parse_error__" with
  | some pv => pyTruthy pv
  | Option.none => false

/-- The ordered structural checks that follow the required-keys
check. -/
def postRequired (s : PyVal) (rules : Rules) (r : GradeResult) : GradeResult :=
  checkStudent s (checkDashboard s rules (checkCI s rules (checkEffect s
    (checkCleanShape s rules (checkAlpha s rules (checkPvalue s rules r))))))

/-- The ordered structural checks of `validate_lab01` after the two
terminal cases, followed by the final status/score step. -/
def runChecks (s : PyVal) (spec : Spec) (r : GradeResult) : GradeResult :=
  finalize (postRequired s (spec.rules.getD emptyRules) (checkRequired s spec r))

/-- Model of `validate_lab01`: a missing summary or a truthy
`__parse_error__` entry is an immediate FAIL with a single error;
otherwise every structural check runs and the result is finalised. -/
def validate_lab01 : Option PyVal → Spec → GradeResult → GradeResult
  | Option.none, _, result =>
    { result with status := "FAIL", score := 0,
                  errors := result.errors ++ [Msg.summaryNotFound] }
  | some s, spec, result =>
    if parseFlagTruthy s then
      { result with status := "FAIL", score := 0,
                    errors := result.errors ++ [Msg.parseError] }
    else runChecks s spec result

/-- Model of `validate_report`: when the spec configures a title
pattern and a positive minimum word count, locate the report section
and warn when it is too short.  An absent pattern, an empty pattern
string (falsy in Python) or a non-positive minimum skips the check. -/
def validate_report (m : String → String → Bool) (cells : List Cell) (spec : Spec)
    (result : GradeResult) : GradeResult :=
  let rs := spec.report.getD ⟨Option.none, Option.none⟩
  let min_words := rs.min_words_in_report_cell.getD 0
  match rs.require_markdown_title_regex with
  | Option.none => result
  | some rx =>
    if rx = "" ∨ min_words ≤ 0 then result
    else
      let wc := count_words (find_markdown_section_text m cells rx)
      if (wc : Int) < min_words then
        appendWarn result (Msg.shortReport wc min_words)
      else result

/-- Model of one iteration of the batch loop in `main`: build a fresh
result, fail on an unreadable notebook, extract the summary named by
the spec, then run the lab01 validator followed by the report check
(only `lab01` has a validator).  The student label is derived from the
submission path by the caller (`get_student_from_path`) and passed in. -/
def gradeSubmission (m : String → String → Bool) (lab : String) (spec : Spec)
    (student path : String) (nb : Except String (List Cell)) : GradeResult :=
  let gr := initResult student path lab
  match nb with
  | Except.error e =>
    { gr with status := "FAIL", score := 0, errors := gr.errors ++ [Msg.readError e] }
  | Except.ok cells =>
    if lab = "lab01" then
      validate_report m cells spec
        (validate_lab01 (extract_lab_summary (spec.summary_var.getD "LAB_SUMMARY") cells) spec gr)
    else
      { gr with status := "FAIL", score := 0, errors := gr.errors ++ [Msg.noValidator lab] }

/-! ## Structural lemmas about the checks -/

/-- Is a message a missing-required-key error? -/
def isMissingKeyB : Msg → Bool
  | Msg.missingKey _ => true
  | _ => false

/-- A check only appends to the error and warning lists (no
missing-key errors among the appended ones) and leaves every other
field of the result unchanged. -/
def CheckAppends (f : GradeResult → GradeResult) : Prop :=
  ∀ r, ∃ es ws,
    f r = { r with errors := r.errors ++ es, warnings := r.warnings ++ ws }
    ∧ es.filter isMissingKeyB = []

theorem CheckAppends.id_like {f : GradeResult → GradeResult} (h : ∀ r, f r = r) :
    CheckAppends f := by
  intro r
  exact ⟨[], [], by rw [h]; simp, rfl⟩

theorem CheckAppends.comp {f g : GradeResult → GradeResult}
    (hf : CheckAppends f) (hg : CheckAppends g) :
    CheckAppends (fun r => g (f r)) := by
  intro r
  obtain ⟨es1, ws1, h1, hm1⟩ := hf r
  obtain ⟨es2, ws2, h2, hm2⟩ := hg (f r)
  refine ⟨es1 ++ es2, ws1 ++ ws2, ?_, ?_⟩
  · show g (f r) = { r with errors := r.errors ++ (es1 ++ es2), warnings := r.warnings ++ (ws1 ++ ws2) }
    rw [h2, h1]
    rcases r with ⟨st, pa, la, sta, sc, er, wa⟩
    simp [List.append_assoc]
  · rw [List.filter_append, hm1, hm2]
    rfl

theorem appendErr_eq (r : GradeResult) (e : Msg) :
    appendErr r e = { r with errors := r.errors ++ [e], warnings := r.warnings ++ [] } := by
  rcases r with ⟨st, pa, la, sta, sc, er, wa⟩
  simp [appendErr]

theorem appendWarn_eq (r : GradeResult) (w : Msg) :
    appendWarn r w = { r with errors := r.errors ++ [], warnings := r.warnings ++ [w] } := by
  rcases r with ⟨st, pa, la, sta, sc, er, wa⟩
  simp [appendWarn]

theorem self_eq_appends (r : GradeResult) :
    r = { r with errors := r.errors ++ [], warnings := r.warnings ++ [] } := by
  rcases r with ⟨st, pa, la, sta, sc, er, wa⟩
  simp

/-- `require_number_range` never produces a missing-key error. -/
theorem rnr_not_missing (d : PyVal) (key : String) (lo hi : ℚ) (e : Msg)
    (h : require_number_range d key lo hi = some e) : isMissingKeyB e = false := by
  unfold require_number_range at h
  split at h
  · cases h
  · split at h
    · split at h
      · cases h
      · obtain rfl := Option.some.inj h
        rfl
    · obtain rfl := Option.some.inj h
      rfl

theorem appendErrOpt_appends (e : Option Msg) (hnm : ∀ msg, e = some msg → isMissingKeyB msg = false) :
    CheckAppends (fun r => appendErrOpt r e) := by
  intro r
  cases e with
  | none => exact ⟨[], [], self_eq_appends r, rfl⟩
  | some msg =>
    refine ⟨[msg], [], appendErr_eq r msg, ?_⟩
    simp [hnm msg rfl]

theorem checkPvalue_appends (s : PyVal) (rules : Rules) : CheckAppends (checkPvalue s rules) :=
  appendErrOpt_appends _ (fun _ h => rnr_not_missing _ _ _ _ _ h)

theorem checkAlpha_appends (s : PyVal) (rules : Rules) : CheckAppends (checkAlpha s rules) :=
  appendErrOpt_appends _ (fun _ h => rnr_not_missing _ _ _ _ _ h)

theorem checkCleanShape_appends (s : PyVal) (rules : Rules) : CheckAppends (checkCleanShape s rules) := by
  intro r
  unfold checkCleanShape
  split
  · exact ⟨[], [], self_eq_appends r, rfl⟩
  · split
    · exact ⟨[Msg.cleanShapeBad], [], appendErr_eq r _, rfl⟩
    · split
      · split
        · exact ⟨[], [Msg.fewRows _], appendWarn_eq r _, rfl⟩
        · exact ⟨[], [], self_eq_appends r, rfl⟩
      · exact ⟨[Msg.cleanShape0NotNumeric], [], appendErr_eq r _, rfl⟩

theorem checkEffect_appends (s : PyVal) : CheckAppends (checkEffect s) := by
  intro r
  unfold checkEffect
  split
  · exact ⟨[], [], self_eq_appends r, rfl⟩
  · split
    · split
      · split
        · exact ⟨[], [], self_eq_appends r, rfl⟩
        · exact ⟨[Msg.effectValueNotNumeric], [], appendErr_eq r _, rfl⟩
      · exact ⟨[Msg.effectBad], [], appendErr_eq r _, rfl⟩
    · exact ⟨[Msg.effectBad], [], appendErr_eq r _, rfl⟩

theorem checkCI_appends (s : PyVal) (rules : Rules) : CheckAppends (checkCI s rules) := by
  intro r
  unfold checkCI
  split
  · exact ⟨[], [], self_eq_appends r, rfl⟩
  · split
    · exact ⟨[Msg.ciBad], [], appendErr_eq r _, rfl⟩
    · split
      · split
        · exact ⟨[Msg.ciOrder], [], appendErr_eq r _, rfl⟩
        · exact ⟨[], [], self_eq_appends r, rfl⟩
      · exact ⟨[Msg.ciNotNumbers], [], appendErr_eq r _, rfl⟩

theorem checkFilters_appends (dd : List (String × PyVal)) (rules : Rules) :
    CheckAppends (checkFilters dd rules) := by
  intro r
  unfold checkFilters
  split
  · split
    · exact ⟨[], [], self_eq_appends r, rfl⟩
    · exact ⟨[], [Msg.missingFilters _], appendWarn_eq r _, rfl⟩
  · exact ⟨[Msg.filtersNotList], [], appendErr_eq r _, rfl⟩

theorem checkCharts_appends (dd : List (String × PyVal)) (rules : Rules) :
    CheckAppends (checkCharts dd rules) := by
  intro r
  unfold checkCharts
  split
  · split
    · exact ⟨[], [Msg.fewCharts _], appendWarn_eq r _, rfl⟩
    · exact ⟨[], [], self_eq_appends r, rfl⟩
  · exact ⟨[Msg.chartsNotList], [], appendErr_eq r _, rfl⟩

theorem checkDashboard_appends (s : PyVal) (rules : Rules) : CheckAppends (checkDashboard s rules) := by
  intro r
  unfold checkDashboard
  split
  · exact ⟨[], [], self_eq_appends r, rfl⟩
  · split
    · exact (CheckAppends.comp (checkFilters_appends _ rules) (checkCharts_appends _ rules)) r
    · exact ⟨[Msg.dashboardNotDict], [], appendErr_eq r _, rfl⟩

theorem checkStudent_appends (s : PyVal) : CheckAppends (checkStudent s) := by
  intro r
  unfold checkStudent
  split
  · split
    · exact ⟨[], [], self_eq_appends r, rfl⟩
    · exact ⟨[], [Msg.studentMismatch _ _], appendWarn_eq r _, rfl⟩
  · exact ⟨[], [], self_eq_appends r, rfl⟩

theorem postRequired_appends (s : PyVal) (rules : Rules) : CheckAppends (postRequired s rules) := by
  have h := ((((((checkPvalue_appends s rules).comp (checkAlpha_appends s rules)).comp
      (checkCleanShape_appends s rules)).comp (checkEffect_appends s)).comp
      (checkCI_appends s rules)).comp (checkDashboard_appends s rules)).comp
      (checkStudent_appends s)
  intro r
  exact h r

theorem finalize_errors (r : GradeResult) : (finalize r).errors = r.errors := by
  unfold finalize
  split <;> rfl

theorem finalize_warnings (r : GradeResult) : (finalize r).warnings = r.warnings := by
  unfold finalize
  split <;> rfl

theorem finalize_pass (r : GradeResult) (h : r.errors = []) :
    (finalize r).status = "PASS"
    ∧ (finalize r).score = max 0.7 (1 - 0.05 * (r.warnings.length : ℚ)) := by
  unfold finalize
  rw [h]
  exact ⟨rfl, rfl⟩

theorem finalize_fail (r : GradeResult) (h : r.errors ≠ []) :
    (finalize r).status = "FAIL" ∧ (finalize r).score = 0 := by
  unfold finalize
  rcases hE : r.errors with _ | ⟨e, es⟩
  · exact absurd hE h
  · exact ⟨rfl, rfl⟩

theorem validate_report_shape (m : String → String → Bool) (cells : List Cell) (spec : Spec)
    (r : GradeResult) :
    validate_report m cells spec r = r ∨
    ∃ wc mw, validate_report m cells spec r
        = { r with warnings := r.warnings ++ [Msg.shortReport wc mw] } := by
  unfold validate_report
  dsimp only
  split
  · exact Or.inl rfl
  · split
    · exact Or.inl rfl
    · split
      · exact Or.inr ⟨_, _, rfl⟩
      · exact Or.inl rfl

theorem validate_report_fields (m : String → String → Bool) (cells : List Cell) (spec : Spec)
    (r : GradeResult) :
    (validate_report m cells spec r).errors = r.errors
    ∧ (validate_report m cells spec r).status = r.status
    ∧ (validate_report m cells spec r).score = r.score := by
  rcases validate_report_shape m cells spec r with h | ⟨wc, mw, h⟩ <;> rw [h] <;> exact ⟨rfl, rfl, rfl⟩

theorem runChecks_shape (s : PyVal) (spec : Spec) (r : GradeResult) :
    ∃ es ws, runChecks s spec r
        = finalize { r with errors := (r.errors ++ require_keys s (spec.required_keys.getD [])) ++ es,
                            warnings := r.warnings ++ ws }
      ∧ es.filter isMissingKeyB = [] := by
  obtain ⟨es, ws, h, hm⟩ := postRequired_appends s (spec.rules.getD emptyRules) (checkRequired s spec r)
  refine ⟨es, ws, ?_, hm⟩
  unfold runChecks
  rw [h]
  rcases r with ⟨st, pa, la, sta, sc, er, wa⟩
  rfl

theorem validate_lab01_shape (summary : Option PyVal) (spec : Spec) (r : GradeResult)
    (hE : r.errors = []) :
    ((validate_lab01 summary spec r).errors = [] →
      (validate_lab01 summary spec r).status = "PASS"
      ∧ (validate_lab01 summary spec r).score
          = max 0.7 (1 - 0.05 * (((validate_lab01 summary spec r).warnings.length : ℚ))))
    ∧ ((validate_lab01 summary spec r).errors ≠ [] →
      (validate_lab01 summary spec r).status = "FAIL" ∧ (validate_lab01 summary spec r).score = 0) := by
  cases summary with
  | none =>
    constructor
    · intro h
      exfalso
      have h2 : r.errors ++ [Msg.summaryNotFound] = [] := h
      rw [hE] at h2
      cases h2
    · intro _
      exact ⟨rfl, rfl⟩
  | some s =>
    cases hp : parseFlagTruthy s
    case true =>
      simp only [validate_lab01, hp, ite_true]
      constructor
      · intro h
        exfalso
        have h2 : r.errors ++ [Msg.parseError] = [] := h
        rw [hE] at h2
        cases h2
      · intro _
        exact ⟨by simp, by simp⟩
    case false =>
      simp only [validate_lab01, hp, Bool.false_eq_true, ite_false]
      obtain ⟨es, ws, h, hm⟩ := runChecks_shape s spec r
      rw [h]
      constructor
      · intro hEmpty
        rw [finalize_errors] at hEmpty
        have hfp := finalize_pass _ hEmpty
        refine ⟨hfp.1, ?_⟩
        rw [hfp.2, finalize_warnings]
      · intro hNe
        rw [finalize_errors] at hNe
        exact finalize_fail _ hNe

theorem require_keys_eq (s : PyVal) (keys : List String) :
    require_keys s keys = (keys.filter (fun k => (pyGetV s k).isNone)).map Msg.missingKey := by
  induction keys with
  | nil => rfl
  | cons k rest ih =>
    unfold require_keys
    cases hx : pyGetV s k with
    | none => simp [hx, ih, List.filter_cons]
    | some v => simp [hx, ih, List.filter_cons]

theorem require_keys_filter (s : PyVal) (keys : List String) :
    (require_keys s keys).filter isMissingKeyB = require_keys s keys := by
  rw [require_keys_eq]
  apply List.filter_eq_self.mpr
  intro a ha
  obtain ⟨k, _, rfl⟩ := List.mem_map.mp ha
  rfl

theorem CheckAppends.mem_errors {f : GradeResult → GradeResult} (hf : CheckAppends f)
    {e : Msg} {r : GradeResult} (he : e ∈ r.errors) : e ∈ (f r).errors := by
  obtain ⟨es, ws, h, _⟩ := hf r
  rw [h]
  show e ∈ r.errors ++ es
  exact List.mem_append_left _ he

/-- When `bootstrap_ci_diff` is a two-element numeric interval with
`lo >= hi` and the ordering rule is on (in particular when it is
absent, since it defaults to required), the CI check appends exactly
the ordering error. -/
theorem checkCI_fires (s : PyVal) (rules : Rules) (ci lo hi : PyVal)
    (hci : pyGetV s "bootstrap_ci_diff" = some ci)
    (h2 : seqOfLen2 ci = some (lo, hi))
    (hlo : is_number lo = true) (hhi : is_number hi = true)
    (hflag : rules.ci_requires_order.getD true = true)
    (hord : toRat hi ≤ toRat lo) (r : GradeResult) :
    checkCI s rules r = appendErr r Msg.ciOrder := by
  simp [checkCI, hci, h2, hlo, hhi, hflag, hord]

/-- The collected markdown texts are exactly the sources of the
markdown cells whose source matches, in document order. -/
theorem collectMarkdown_eq (m : String → String → Bool) (rx : String) (cells : List Cell) :
    collectMarkdown m rx cells
      = ((cells.filter (fun c => decide (c.cell_type = "markdown") && m rx c.source)).map
          (fun c => c.source)) := by
  induction cells with
  | nil => rfl
  | cons c rest ih =>
    unfold collectMarkdown
    by_cases h1 : c.cell_type = "markdown"
    · rw [if_neg (not_not_intro h1)]
      by_cases h2 : m rx c.source
      · rw [if_pos h2, ih]
        simp [List.filter_cons, h1, h2]
      · rw [if_neg h2, ih]
        simp [List.filter_cons, h1, Bool.eq_false_iff.mpr h2]
    · rw [if_pos h1, ih]
      simp [List.filter_cons, h1]

/-- `extract_lab_summary` returns `None` exactly when every code cell's
per-cell extraction returns `None`. -/
theorem extract_none_iff (varname : String) (cells : List Cell) :
    extract_lab_summary varname cells = Option.none ↔
      ∀ c ∈ cells, c.cell_type = "code" → extractDictLiteralFromCode c.source varname = Option.none := by
  induction cells with
  | nil => simp [extract_lab_summary]
  | cons c rest ih =>
    unfold extract_lab_summary
    by_cases h1 : c.cell_type = "code"
    · rw [if_neg (not_not_intro h1)]
      cases hx : extractDictLiteralFromCode c.source varname with
      | none => simp [List.forall_mem_cons, h1, hx, ih]
      | some v => simp [List.forall_mem_cons, h1, hx]
    · rw [if_pos h1]
      simp [List.forall_mem_cons, h1, ih]

/-- When `extract_lab_summary` returns a value, it is the value of the
first code cell whose per-cell extraction succeeds, and every earlier
code cell's extraction returned `None`. -/
theorem extract_some_first (varname : String) (cells : List Cell) (v : PyVal)
    (h : extract_lab_summary varname cells = some v) :
    ∃ pre c post, cells = pre ++ c :: post ∧ c.cell_type = "code"
      ∧ extractDictLiteralFromCode c.source varname = some v
      ∧ ∀ c2 ∈ pre, c2.cell_type = "code" → extractDictLiteralFromCode c2.source varname = Option.none := by
  induction cells with
  | nil => cases h
  | cons c rest ih =>
    unfold extract_lab_summary at h
    by_cases h1 : c.cell_type = "code"
    · rw [if_neg (not_not_intro h1)] at h
      cases hx : extractDictLiteralFromCode c.source varname with
      | some w =>
        rw [hx] at h
        obtain rfl := Option.some.inj h
        exact ⟨[], c, rest, rfl, h1, hx, by simp⟩
      | none =>
        rw [hx] at h
        obtain ⟨pre, c1, post, hsplit, hc1, hex, hpre⟩ := ih h
        refine ⟨c :: pre, c1, post, by simp [hsplit], hc1, hex, ?_⟩
        intro c2 hc2 hcode
        rcases List.mem_cons.mp hc2 with rfl | hmem
        · exact hx
        · exact hpre c2 hmem hcode
    · rw [if_pos h1] at h
      obtain ⟨pre, c1, post, hsplit, hc1, hex, hpre⟩ := ih h
      refine ⟨c :: pre, c1, post, by simp [hsplit], hc1, hex, ?_⟩
      intro c2 hc2 hcode
      rcases List.mem_cons.mp hc2 with rfl | hmem
      · exact absurd hcode h1
      · exact hpre c2 hmem hcode

/-! ## The balanced-span contract -/

/-- Specification-side rendering of the balanced-span contract: scan
forward keeping a depth counter, +1 at an opening brace and -1 at a
closing brace, and return the index one past the character at which
the depth first returns to zero. -/
def firstZeroScan : List Char → Int → Nat → Option Nat
  | [], _, _ => Option.none
  | c :: rest, d, i =>
    if d + (if c = '\x7b' then 1 else if c = '\x7d' then -1 else 0) = 0 then some (i + 1)
    else firstZeroScan rest (d + (if c = '\x7b' then 1 else if c = '\x7d' then -1 else 0)) (i + 1)

theorem balancedScan_eq_firstZeroScan (l : List Char) :
    ∀ d : Int, 0 < d → ∀ i : Nat, balancedScan l d i = firstZeroScan l d i := by
  induction l with
  | nil => intro d _ i; rfl
  | cons c rest ih =>
    intro d hd i
    unfold balancedScan firstZeroScan
    by_cases h1 : c = '\x7b'
    · simp only [if_pos h1]
      rw [if_neg (show ¬(d + 1 = 0) by omega)]
      exact ih (d + 1) (by omega) (i + 1)
    · by_cases h2 : c = '\x7d'
      · simp only [if_neg h1, if_pos h2]
        rw [show d + -1 = d - 1 by ring]
        by_cases h3 : d - 1 = 0
        · simp only [if_pos h3]
        · simp only [if_neg h3]
          exact ih (d - 1) (by omega) (i + 1)
      · simp only [if_neg h1, if_neg h2]
        rw [show d + 0 = d by ring, if_neg (show ¬(d = 0) by omega)]
        exact ih d hd (i + 1)

/-! ## Concrete fixtures used by counterexamples and witnesses -/

/-- A title matcher that matches nothing (a pattern occurring in no
cell). -/
def matchNone : String → String → Bool := fun _ _ => false

/-- A spec with every key absent. -/
def specEmpty : Spec := ⟨Option.none, Option.none, Option.none, Option.none⟩

/-- A spec whose only content is a report requirement (title pattern
`"Informe"`, minimum five words). -/
def specReport : Spec := ⟨Option.none, Option.none, Option.none, some ⟨some "Informe", some 5⟩⟩

/-- A code cell assigning the empty dict to `LAB_SUMMARY`. -/
def cellEmptyDict : Cell := ⟨"code", "LAB_SUMMARY = \x7b\x7d"⟩

/-! ## The claims -/

/-- C3: for every completed `GradeResult` produced by grading one
submission, the status is `FAIL` iff the error list is non-empty, and
a `FAIL` status forces score 0. -/
theorem claim_C3_status_iff_errors (m : String → String → Bool) (lab : String) (spec : Spec)
    (student path : String) (nb : Except String (List Cell)) :
    ((gradeSubmission m lab spec student path nb).status = "FAIL"
      ↔ (gradeSubmission m lab spec student path nb).errors ≠ [])
    ∧ ((gradeSubmission m lab spec student path nb).status = "FAIL"
      → (gradeSubmission m lab spec student path nb).score = 0) := by
  cases nb with
  | error e =>
    refine ⟨⟨fun _ => ?_, fun _ => rfl⟩, fun _ => rfl⟩
    simp [gradeSubmission, initResult]
  | ok cells =>
    by_cases hl : lab = "lab01"
    · subst hl
      have hg : gradeSubmission m "lab01" spec student path (Except.ok cells)
          = validate_report m cells spec
              (validate_lab01 (extract_lab_summary (spec.summary_var.getD "LAB_SUMMARY") cells)
                spec (initResult student path "lab01")) := rfl
      obtain ⟨hfe, hfs, hfsc⟩ := validate_report_fields m cells spec
        (validate_lab01 (extract_lab_summary (spec.summary_var.getD "LAB_SUMMARY") cells)
          spec (initResult student path "lab01"))
      have hv := validate_lab01_shape
        (extract_lab_summary (spec.summary_var.getD "LAB_SUMMARY") cells) spec
        (initResult student path "lab01") rfl
      rw [hg, hfe, hfs, hfsc]
      constructor
      · constructor
        · intro hFail hE
          have h1 := (hv.1 hE).1
          rw [h1] at hFail
          exact absurd hFail (by decide)
        · intro hNe
          exact (hv.2 hNe).1
      · intro hFail
        by_cases hE : (validate_lab01
            (extract_lab_summary (spec.summary_var.getD "LAB_SUMMARY") cells) spec
            (initResult student path "lab01")).errors = []
        · have h1 := (hv.1 hE).1
          rw [h1] at hFail
          exact absurd hFail (by decide)
        · exact (hv.2 hE).2
    · have hg : gradeSubmission m lab spec student path (Except.ok cells)
          = { initResult student path lab with
                status := "FAIL", score := 0, errors := [Msg.noValidator lab] } := by
        unfold gradeSubmission
        dsimp only
        rw [if_neg hl]
        rfl
      rw [hg]
      exact ⟨⟨fun _ => by simp, fun _ => rfl⟩, fun _ => rfl⟩

/-- Witness for C3 at concrete submissions: an unknown lab FAILs with
score 0, and an empty lab01 notebook FAILs with a non-empty error
list. -/
theorem claim_C3_witness :
    (gradeSubmission matchNone "lab02" specEmpty "Ana" "p" (Except.ok [])).score = 0
    ∧ (gradeSubmission matchNone "lab01" specEmpty "Ana" "p" (Except.ok [])).errors ≠ [] := by
  constructor
  · exact (claim_C3_status_iff_errors matchNone "lab02" specEmpty "Ana" "p" (Except.ok [])).2 rfl
  · exact (claim_C3_status_iff_errors matchNone "lab01" specEmpty "Ana" "p" (Except.ok [])).1.mp rfl

/-- C9: a successfully parsed summary that itself binds
`__parse_error__` to a truthy value is treated as the unparseable
sentinel: immediate FAIL, score 0, a single parse error appended, and
no structural check runs (warnings untouched). -/
theorem claim_C9_parse_flag (s : PyVal) (spec : Spec) (r : GradeResult) (pv : PyVal)
    (h1 : pyGetV s "__parse_error__" = some pv) (h2 : pyTruthy pv = true) :
    validate_lab01 (some s) spec r
      = { r with status := "FAIL", score := 0, errors := r.errors ++ [Msg.parseError] } := by
  have hp : parseFlagTruthy s = true := by
    unfold parseFlagTruthy
    rw [h1]
    exact h2
  simp only [validate_lab01, hp, ite_true]

/-- Witness for C9: extraction of a concrete well-formed literal that
contains the flag, and the resulting single-parse-error FAIL. -/
theorem claim_C9_witness :
    extract_lab_summary "LAB_SUMMARY"
        [⟨"code", "LAB_SUMMARY = \x7b'__parse_error__': True, 'pvalue': 0.5\x7d"⟩]
      = some (PyVal.dict [("__parse_error__", PyVal.bool true), ("pvalue", PyVal.float (1/2))])
    ∧ validate_lab01
        (some (PyVal.dict [("__parse_error__", PyVal.bool true), ("pvalue", PyVal.float (1/2))]))
        specEmpty (initResult "Ana" "p" "lab01")
      = { initResult "Ana" "p" "lab01" with
            status := "FAIL", score := 0, errors := [Msg.parseError] } := by
  constructor
  · with_unfolding_all rfl
  · exact claim_C9_parse_flag _ specEmpty _ (PyVal.bool true) rfl rfl

/-- C10: with `ci_requires_order` absent from the rules, the ordering
constraint on `bootstrap_ci_diff` is still enforced (the flag defaults
to required): a numeric interval with `lo >= hi` yields the ordering
error and a FAIL. -/
theorem claim_C10_ci_default (spec : Spec) (rules : Rules) (s : PyVal) (r : GradeResult)
    (hr : spec.rules = some rules) (hflag : rules.ci_requires_order = Option.none)
    (hp : parseFlagTruthy s = false)
    (ci lo hi : PyVal)
    (hci : pyGetV s "bootstrap_ci_diff" = some ci)
    (h2 : seqOfLen2 ci = some (lo, hi))
    (hlo : is_number lo = true) (hhi : is_number hi = true)
    (hord : toRat hi ≤ toRat lo) :
    Msg.ciOrder ∈ (validate_lab01 (some s) spec r).errors
    ∧ (validate_lab01 (some s) spec r).status = "FAIL" := by
  have hfl : (spec.rules.getD emptyRules).ci_requires_order.getD true = true := by
    rw [hr]
    simp [hflag]
  have hfire := checkCI_fires s (spec.rules.getD emptyRules) ci lo hi hci h2 hlo hhi hfl hord
  simp only [validate_lab01, hp, Bool.false_eq_true, ite_false]
  unfold runChecks postRequired
  rw [hfire]
  have hmem : Msg.ciOrder ∈ (appendErr (checkEffect s (checkCleanShape s (spec.rules.getD emptyRules)
      (checkAlpha s (spec.rules.getD emptyRules) (checkPvalue s (spec.rules.getD emptyRules)
        (checkRequired s spec r))))) Msg.ciOrder).errors := by
    simp [appendErr]
  have hmem2 := (checkDashboard_appends s (spec.rules.getD emptyRules)).mem_errors hmem
  have hmem3 := (checkStudent_appends s).mem_errors hmem2
  constructor
  · rw [finalize_errors]
    exact hmem3
  · exact (finalize_fail _ (List.ne_nil_of_mem hmem3)).1

/-- Witness for C10: a spec whose rules mapping is present but omits
`ci_requires_order`, and an inverted concrete interval. -/
theorem claim_C10_witness :
    Msg.ciOrder ∈ (validate_lab01
        (some (PyVal.dict [("bootstrap_ci_diff", PyVal.list [PyVal.float 2, PyVal.float 1])]))
        (Spec.mk Option.none Option.none (some emptyRules) Option.none)
        (initResult "Ana" "p" "lab01")).errors
    ∧ (validate_lab01
        (some (PyVal.dict [("bootstrap_ci_diff", PyVal.list [PyVal.float 2, PyVal.float 1])]))
        (Spec.mk Option.none Option.none (some emptyRules) Option.none)
        (initResult "Ana" "p" "lab01")).status = "FAIL" := by
  exact claim_C10_ci_default _ emptyRules _ _ rfl rfl rfl
    (PyVal.list [PyVal.float 2, PyVal.float 1]) (PyVal.float 2) (PyVal.float 1)
    rfl rfl rfl rfl (by norm_num [toRat])

/-- C5: for a parsed summary and a non-empty `required_keys` list with
omitted keys, validation records exactly one missing-key error per
omitted key (none for present keys) and the status is FAIL. -/
theorem claim_C5_missing_keys (spec : Spec) (s : PyVal) (r : GradeResult)
    (hp : parseFlagTruthy s = false) (hE : r.errors = [])
    (hmiss : (spec.required_keys.getD []).filter (fun k => (pyGetV s k).isNone) ≠ []) :
    ((validate_lab01 (some s) spec r).errors.filter isMissingKeyB
        = ((spec.required_keys.getD []).filter (fun k => (pyGetV s k).isNone)).map Msg.missingKey)
    ∧ (validate_lab01 (some s) spec r).status = "FAIL" := by
  simp only [validate_lab01, hp, Bool.false_eq_true, ite_false]
  obtain ⟨es, ws, h, hm⟩ := runChecks_shape s spec r
  rw [h]
  constructor
  · rw [finalize_errors]
    show ((r.errors ++ require_keys s (spec.required_keys.getD [])) ++ es).filter isMissingKeyB = _
    rw [List.filter_append, List.filter_append, hm, hE, List.filter_nil, List.nil_append,
      List.append_nil, require_keys_filter, require_keys_eq]
  · refine (finalize_fail _ ?_).1
    show (r.errors ++ require_keys s (spec.required_keys.getD [])) ++ es ≠ []
    intro hc
    have hrk : require_keys s (spec.required_keys.getD []) = [] := by
      rcases List.append_eq_nil.mp hc with ⟨hc1, _⟩
      exact (List.append_eq_nil.mp hc1).2
    rw [require_keys_eq] at hrk
    exact hmiss (by simpa using hrk)

/-- Witness for C5: a summary supplying only `alpha` against a spec
requiring `pvalue` and `alpha`. -/
theorem claim_C5_witness :
    ((validate_lab01 (some (PyVal.dict [("alpha", PyVal.float (1/20))]))
        (Spec.mk Option.none (some ["pvalue", "alpha"]) Option.none Option.none)
        (initResult "Ana" "p" "lab01")).errors.filter isMissingKeyB
      = [Msg.missingKey "pvalue"])
    ∧ (validate_lab01 (some (PyVal.dict [("alpha", PyVal.float (1/20))]))
        (Spec.mk Option.none (some ["pvalue", "alpha"]) Option.none Option.none)
        (initResult "Ana" "p" "lab01")).status = "FAIL" := by
  have h := claim_C5_missing_keys
    (Spec.mk Option.none (some ["pvalue", "alpha"]) Option.none Option.none)
    (PyVal.dict [("alpha", PyVal.float (1/20))]) (initResult "Ana" "p" "lab01")
    rfl rfl (by decide)
  exact ⟨h.1, h.2⟩

/-- C6: a numeric (non-boolean) field inside the inclusive range,
boundaries included, passes the range check; a numeric value strictly
outside produces the out-of-range error naming the value; a boolean or
non-numeric value always produces the not-numeric error. -/
theorem claim_C6_number_range (s : PyVal) (key : String) (lo hi : ℚ) (v : PyVal)
    (hv : pyGetV s key = some v) :
    ((is_number v = true ∧ lo ≤ toRat v ∧ toRat v ≤ hi)
        → require_number_range s key lo hi = Option.none)
    ∧ ((is_number v = true ∧ (toRat v < lo ∨ hi < toRat v))
        → require_number_range s key lo hi = some (Msg.outOfRange key lo hi v))
    ∧ (is_number v = false
        → require_number_range s key lo hi = some (Msg.mustBeNumeric key))
    ∧ (∀ b, v = PyVal.bool b → require_number_range s key lo hi = some (Msg.mustBeNumeric key)) := by
  have key3 : is_number v = false
      → require_number_range s key lo hi = some (Msg.mustBeNumeric key) := by
    intro hn
    unfold require_number_range
    rw [hv]
    dsimp only
    rw [if_neg (by simp [hn])]
  refine ⟨?_, ?_, key3, fun b hb => key3 (by rw [hb]; rfl)⟩
  · rintro ⟨hn, h1, h2⟩
    unfold require_number_range
    rw [hv]
    dsimp only
    rw [if_pos hn, if_pos ⟨h1, h2⟩]
  · rintro ⟨hn, hout⟩
    unfold require_number_range
    rw [hv]
    dsimp only
    rw [if_pos hn, if_neg ?_]
    rintro ⟨ha, hb⟩
    rcases hout with hlt | hgt
    · exact absurd ha (not_le.mpr hlt)
    · exact absurd hb (not_le.mpr hgt)

/-- Witness for C6: an out-of-range `pvalue` of 1.5 on the range
[0, 1], a boundary `alpha` of 1, and a boolean rejected as numeric. -/
theorem claim_C6_witness :
    require_number_range (PyVal.dict [("pvalue", PyVal.float (3/2))]) "pvalue" 0 1
      = some (Msg.outOfRange "pvalue" 0 1 (PyVal.float (3/2)))
    ∧ require_number_range (PyVal.dict [("alpha", PyVal.float 1)]) "alpha" 0 1 = Option.none
    ∧ require_number_range (PyVal.dict [("alpha", PyVal.bool true)]) "alpha" 0 1
      = some (Msg.mustBeNumeric "alpha") := by
  refine ⟨?_, ?_, ?_⟩
  · exact (claim_C6_number_range (PyVal.dict [("pvalue", PyVal.float (3/2))]) "pvalue" 0 1
      (PyVal.float (3/2)) rfl).2.1 ⟨rfl, Or.inr (by norm_num [toRat])⟩
  · exact (claim_C6_number_range (PyVal.dict [("alpha", PyVal.float 1)]) "alpha" 0 1
      (PyVal.float 1) rfl).1 ⟨rfl, by norm_num [toRat], by norm_num [toRat]⟩
  · exact (claim_C6_number_range (PyVal.dict [("alpha", PyVal.bool true)]) "alpha" 0 1
      (PyVal.bool true) rfl).2.2.2 true rfl

/-- C8: the section finder returns the blank-line-separated
concatenation, in document order, of the sources of the markdown cells
matching the pattern, trimmed of leading and trailing whitespace, and
the empty string when no cell matches. -/
theorem claim_C8_section_finder (m : String → String → Bool) (rx : String) (cells : List Cell) :
    find_markdown_section_text m cells rx
      = pyStrip (String.intercalate "\n\n"
          ((cells.filter (fun c => decide (c.cell_type = "markdown") && m rx c.source)).map
            (fun c => c.source)))
    ∧ ((∀ c ∈ cells, c.cell_type = "markdown" → m rx c.source = false)
        → find_markdown_section_text m cells rx = "") := by
  constructor
  · unfold find_markdown_section_text
    rw [collectMarkdown_eq]
  · intro hno
    unfold find_markdown_section_text
    have hcol : collectMarkdown m rx cells = [] := by
      rw [collectMarkdown_eq]
      apply List.map_eq_nil_iff.mpr
      rw [List.filter_eq_nil_iff]
      intro c hc
      simp only [Bool.and_eq_true, decide_eq_true_eq, not_and]
      intro hmd hmt
      rw [hno c hc hmd] at hmt
      cases hmt
    rw [hcol]
    rfl

/-- Witness for C8: a pattern matching no markdown cell yields the
empty string. -/
theorem claim_C8_witness :
    find_markdown_section_text matchNone [⟨"markdown", "## Resultados"⟩] "Informe" = "" := by
  exact (claim_C8_section_finder matchNone "Informe" [⟨"markdown", "## Resultados"⟩]).2
    (fun c hc hmd => rfl)

/-- C7 (amended): starting at an opening brace, the balanced-span
fallback agrees with the depth-counter specification (index one past
the point where the depth first returns to zero, not-found if it never
does); and when the fallback reports not-found after a failed greedy
parse, the per-block extractor returns `None` — not the unparseable
sentinel. -/
theorem claim_C7_balanced_span (cs : List Char) (start : Nat)
    (hbrace : cs.getD start ' ' = '\x7b') :
    balancedEnd cs start = firstZeroScan (cs.drop start) 0 start
    ∧ (∀ code varname rawL s2,
        searchAssign varname code = some rawL →
        literal_eval (String.mk rawL) = Option.none →
        rawL.findIdx? (fun c => c = '\x7b') = some s2 →
        balancedEnd rawL s2 = Option.none →
        extractDictLiteralFromCode (String.mk code) (String.mk varname) = Option.none) := by
  constructor
  · have hlt : start < cs.length := by
      by_contra hge
      push_neg at hge
      rw [List.getD_eq_default _ _ hge] at hbrace
      exact absurd hbrace (by decide)
    have hgd : cs[start] = '\x7b' := by
      rw [← List.getD_eq_getElem cs ' ' hlt]
      exact hbrace
    have hdrop : cs.drop start = '\x7b' :: cs.drop (start + 1) := by
      rw [List.drop_eq_getElem_cons hlt, hgd]
    unfold balancedEnd
    rw [hdrop]
    unfold balancedScan firstZeroScan
    rw [if_pos rfl]
    simp only [if_true]
    rw [if_neg (show ¬((0 : Int) + 1 = 0) by omega)]
    rw [show (0 : Int) + 1 = 1 by ring]
    exact balancedScan_eq_firstZeroScan (cs.drop (start + 1)) 1 one_pos (start + 1)
  · intro code varname rawL s2 hsea hlit hfind hbal
    have hsea2 : searchAssign (String.mk varname).toList (String.mk code).toList = some rawL := hsea
    simp only [extractDictLiteralFromCode, hsea2, hlit, hfind, hbal]

/-- Counterexample for C7 as stated: on `X = {{}` the depth never
returns to zero, and the extractor returns `None`, not the unparseable
sentinel. -/
theorem claim_C7_cex :
    balancedEnd ("\x7b\x7b\x7d".toList) 0 = Option.none
    ∧ extractDictLiteralFromCode "X = \x7b\x7b\x7d" "X" = Option.none
    ∧ (Option.none : Option PyVal) ≠ some parseErrorSentinel := by
  refine ⟨rfl, rfl, ?_⟩
  simp

/-- Witness for C7 at a concrete balanced span. -/
theorem claim_C7_witness :
    balancedEnd ("\x7b'a': 1\x7d".toList) 0 = firstZeroScan ("\x7b'a': 1\x7d".toList) 0 0
    ∧ balancedEnd ("\x7b'a': 1\x7d".toList) 0 = some 8 := by
  constructor
  · exact (claim_C7_balanced_span ("\x7b'a': 1\x7d".toList) 0 rfl).1
  · rfl

/-- C4 (amended): the extractor returns the recovered value of the
first code block whose per-block extraction succeeds, skipping code
blocks whose extraction yields `None` (which can happen even for a
block with a structural match, when its greedy span is unparseable and
has no balanced brace span); it returns `None` exactly when every code
block's per-block extraction yields `None`. -/
theorem claim_C4_first_success (varname : String) (cells : List Cell) :
    (extract_lab_summary varname cells = Option.none ↔
      ∀ c ∈ cells, c.cell_type = "code" → extractDictLiteralFromCode c.source varname = Option.none)
    ∧ (∀ v, extract_lab_summary varname cells = some v →
        ∃ pre c post, cells = pre ++ c :: post ∧ c.cell_type = "code"
          ∧ extractDictLiteralFromCode c.source varname = some v
          ∧ ∀ c2 ∈ pre, c2.cell_type = "code" →
              extractDictLiteralFromCode c2.source varname = Option.none) :=
  ⟨extract_none_iff varname cells, fun v h => extract_some_first varname cells v h⟩

/-- Counterexample for C4 as stated: a block with a structural match
whose greedy span has no balanced brace prefix yields `None` (so the
extractor can return `None` although a structural match exists), and
with a second block defining the variable the extractor returns the
second block's value rather than the result of the first structurally
matching block. -/
theorem claim_C4_cex :
    has_structural_match "LAB_SUMMARY = \x7b\x7b\x7d" "LAB_SUMMARY" = true
    ∧ extract_lab_summary "LAB_SUMMARY" [⟨"code", "LAB_SUMMARY = \x7b\x7b\x7d"⟩] = Option.none
    ∧ has_structural_match "LAB_SUMMARY = \x7b'a': 1\x7d" "LAB_SUMMARY" = true
    ∧ extract_lab_summary "LAB_SUMMARY"
        [⟨"code", "LAB_SUMMARY = \x7b\x7b\x7d"⟩, ⟨"code", "LAB_SUMMARY = \x7b'a': 1\x7d"⟩]
      = some (PyVal.dict [("a", PyVal.int 1)]) := by
  refine ⟨rfl, rfl, rfl, ?_⟩
  with_unfolding_all rfl

/-- Witness for C4: a notebook whose only assignment lives in a
markdown cell is not extracted. -/
theorem claim_C4_witness :
    extract_lab_summary "LAB_SUMMARY" [⟨"markdown", "LAB_SUMMARY = \x7b'a': 1\x7d"⟩]
      = Option.none := by
  apply (claim_C4_first_success "LAB_SUMMARY" [⟨"markdown", "LAB_SUMMARY = \x7b'a': 1\x7d"⟩]).1.mpr
  intro c hc hcode
  rcases List.mem_cons.mp hc with rfl | hmem
  · exact absurd hcode (by decide)
  · exact absurd hmem (List.not_mem_nil c)

/-- C1 (amended): on the full lab01 pipeline, if no error is recorded
the status is PASS and the score equals
`max(0.7, 1 - 0.05 * n)` where `n` counts the warnings present at the
end of the structural validation — the report word-count warning is
appended after the score is computed and does not erode it; the score
is exactly 1 when the structural validation records no warning, and
never below 0.7 on PASS.  Any recorded error gives FAIL and score 0. -/
theorem claim_C1_scoring (m : String → String → Bool) (spec : Spec) (student path : String)
    (cells : List Cell) :
    ((gradeSubmission m "lab01" spec student path (Except.ok cells)).errors = [] →
      (gradeSubmission m "lab01" spec student path (Except.ok cells)).status = "PASS"
      ∧ (gradeSubmission m "lab01" spec student path (Except.ok cells)).score
          = max 0.7 (1 - 0.05 *
              (((validate_lab01 (extract_lab_summary (spec.summary_var.getD "LAB_SUMMARY") cells)
                  spec (initResult student path "lab01")).warnings.length : ℚ)))
      ∧ ((validate_lab01 (extract_lab_summary (spec.summary_var.getD "LAB_SUMMARY") cells)
            spec (initResult student path "lab01")).warnings = []
          → (gradeSubmission m "lab01" spec student path (Except.ok cells)).score = 1)
      ∧ 0.7 ≤ (gradeSubmission m "lab01" spec student path (Except.ok cells)).score)
    ∧ ((gradeSubmission m "lab01" spec student path (Except.ok cells)).errors ≠ [] →
      (gradeSubmission m "lab01" spec student path (Except.ok cells)).status = "FAIL"
      ∧ (gradeSubmission m "lab01" spec student path (Except.ok cells)).score = 0) := by
  have hg : gradeSubmission m "lab01" spec student path (Except.ok cells)
      = validate_report m cells spec
          (validate_lab01 (extract_lab_summary (spec.summary_var.getD "LAB_SUMMARY") cells)
            spec (initResult student path "lab01")) := rfl
  obtain ⟨hfe, hfs, hfsc⟩ := validate_report_fields m cells spec
    (validate_lab01 (extract_lab_summary (spec.summary_var.getD "LAB_SUMMARY") cells)
      spec (initResult student path "lab01"))
  have hv := validate_lab01_shape
    (extract_lab_summary (spec.summary_var.getD "LAB_SUMMARY") cells) spec
    (initResult student path "lab01") rfl
  rw [hg, hfe, hfs, hfsc]
  constructor
  · intro hE
    obtain ⟨hstat, hscore⟩ := hv.1 hE
    refine ⟨hstat, hscore, ?_, ?_⟩
    · intro hw
      rw [hscore, hw]
      norm_num
    · rw [hscore]
      exact le_max_left _ _
  · intro hNe
    exact hv.2 hNe

/-- Counterexample for C1 as stated: a PASSing submission whose only
warning is the report word-count warning keeps score 1, while the
claimed formula over the total warning count gives 0.95. -/
theorem claim_C1_cex :
    (gradeSubmission matchNone "lab01" specReport "Ana" "p" (Except.ok [cellEmptyDict])).errors = []
    ∧ (gradeSubmission matchNone "lab01" specReport "Ana" "p" (Except.ok [cellEmptyDict])).status
        = "PASS"
    ∧ (gradeSubmission matchNone "lab01" specReport "Ana" "p"
        (Except.ok [cellEmptyDict])).warnings.length = 1
    ∧ (gradeSubmission matchNone "lab01" specReport "Ana" "p" (Except.ok [cellEmptyDict])).score = 1
    ∧ max (0.7 : ℚ) (1 - 0.05 * (1 : ℚ)) = 19/20
    ∧ ¬ ((1 : ℚ) = 19/20) := by
  refine ⟨rfl, rfl, rfl, ?_, by norm_num, by norm_num⟩
  with_unfolding_all rfl

/-- Witness for C1: a clean submission with no report requirement
PASSes with score exactly 1. -/
theorem claim_C1_witness :
    (gradeSubmission matchNone "lab01" specEmpty "Ana" "p" (Except.ok [cellEmptyDict])).status
        = "PASS"
    ∧ (gradeSubmission matchNone "lab01" specEmpty "Ana" "p" (Except.ok [cellEmptyDict])).score
        = 1 := by
  have h := (claim_C1_scoring matchNone specEmpty "Ana" "p" [cellEmptyDict]).1 rfl
  exact ⟨h.1, h.2.2.1 rfl⟩

/-- C2 (amended): when no block assigns the target variable, the
result is FAIL with score 0 and exactly the one not-found error, and
no structural check or structural warning is produced; the separate
report check still runs, so the warning list is either empty or the
single report word-count warning. -/
theorem claim_C2_not_found (m : String → String → Bool) (spec : Spec) (student path : String)
    (cells : List Cell)
    (hx : extract_lab_summary (spec.summary_var.getD "LAB_SUMMARY") cells = Option.none) :
    (gradeSubmission m "lab01" spec student path (Except.ok cells)).status = "FAIL"
    ∧ (gradeSubmission m "lab01" spec student path (Except.ok cells)).score = 0
    ∧ (gradeSubmission m "lab01" spec student path (Except.ok cells)).errors
        = [Msg.summaryNotFound]
    ∧ ((gradeSubmission m "lab01" spec student path (Except.ok cells)).warnings = []
        ∨ ∃ wc mw, (gradeSubmission m "lab01" spec student path (Except.ok cells)).warnings
            = [Msg.shortReport wc mw]) := by
  have hg : gradeSubmission m "lab01" spec student path (Except.ok cells)
      = validate_report m cells spec
          (validate_lab01 (extract_lab_summary (spec.summary_var.getD "LAB_SUMMARY") cells)
            spec (initResult student path "lab01")) := rfl
  rw [hg, hx]
  have hV : validate_lab01 Option.none spec (initResult student path "lab01")
      = { initResult student path "lab01" with
            status := "FAIL", score := 0, errors := [Msg.summaryNotFound] } := rfl
  rw [hV]
  rcases validate_report_shape m cells spec
      { initResult student path "lab01" with
          status := "FAIL", score := 0, errors := [Msg.summaryNotFound] } with h | ⟨wc, mw, h⟩ <;>
    rw [h]
  · exact ⟨rfl, rfl, rfl, Or.inl rfl⟩
  · exact ⟨rfl, rfl, rfl, Or.inr ⟨wc, mw, rfl⟩⟩

/-- Counterexample for C2 as stated: with a report requirement in the
spec, a submission with no assignment at all still receives the report
word-count warning, so the warning list is not empty. -/
theorem claim_C2_cex :
    (gradeSubmission matchNone "lab01" specReport "Ana" "p" (Except.ok [])).status = "FAIL"
    ∧ (gradeSubmission matchNone "lab01" specReport "Ana" "p" (Except.ok [])).score = 0
    ∧ (gradeSubmission matchNone "lab01" specReport "Ana" "p" (Except.ok [])).errors
        = [Msg.summaryNotFound]
    ∧ (gradeSubmission matchNone "lab01" specReport "Ana" "p" (Except.ok [])).warnings
        = [Msg.shortReport 0 5] := by
  exact ⟨rfl, rfl, rfl, rfl⟩

/-- Witness for C2: an empty notebook against the empty spec FAILs
with the single not-found error. -/
theorem claim_C2_witness :
    (gradeSubmission matchNone "lab01" specEmpty "Ana" "p" (Except.ok [])).status = "FAIL"
    ∧ (gradeSubmission matchNone "lab01" specEmpty "Ana" "p" (Except.ok [])).errors
        = [Msg.summaryNotFound] := by
  have h := claim_C2_not_found matchNone specEmpty "Ana" "p" [] rfl
  exact ⟨h.1, h.2.2.1⟩
